import Mathlib

/-!
Shallow embedding of the MPIN strength validator
(`src/MPIN Validation/mpin_validator.py`).

Modelling conventions:
  - Python strings are Lean `String`; `s.isdigit()` is `str_isdigit`,
    which checks ASCII decimal digits.
  - Python integers are `Int`/`Nat`.  For a positive modulus Python's
    `%` agrees with `Int.emod` (both yield a result in `[0, m)`), and
    Python's `//` agrees with `Int.ediv`, so `%` and `/` on `Int`
    translate the source directly.
  - A Python `set` of strings is a `Finset String`.
  - A Python `date` is modelled as an arbitrary (year, month, day)
    triple `PDate`; the validator's `_is_valid_date` is the only place
    calendar validity is checked.
  - `generate_date_pins` reads the wall clock via `date.today().year`;
    that hidden input is made explicit as the `current_year` argument
    threaded through `generate_date_pins` and `check_pin_strength`.
-/

/-- A calendar-date triple (year, month, day) as consumed by the validator. -/
structure PDate where
  year : Nat
  month : Nat
  day : Nat
  deriving DecidableEq, Repr

/-- The verdict dictionary returned by `check_pin_strength`:
a strength string and an ordered list of reason codes. -/
structure Verdict where
  strength : String
  reasons : List String
  deriving DecidableEq, Repr

/-- Reason-code constant `REASON_COMMONLY_USED`. -/
def REASON_COMMONLY_USED : String := "COMMONLY_USED"

/-- Reason-code constant `REASON_DOB_SELF`. -/
def REASON_DOB_SELF : String := "DEMOGRAPHIC_DOB_SELF"

/-- Reason-code constant `REASON_DOB_SPOUSE`. -/
def REASON_DOB_SPOUSE : String := "DEMOGRAPHIC_DOB_SPOUSE"

/-- Reason-code constant `REASON_ANNIVERSARY`. -/
def REASON_ANNIVERSARY : String := "DEMOGRAPHIC_ANNIVERSARY"

/-- Python `s.isdigit()` restricted to ASCII: true iff the string is
non-empty and every character is a decimal digit. -/
def str_isdigit (s : String) : Bool :=
  !s.data.isEmpty && s.data.all Char.isDigit

/-- `is_sequence` from the source: the digit string is an arithmetic
progression modulo 10 whose step is taken from the first two digits and
normalized from `[0,10)` to `[-5,5]`.  (In the source `int(c)` is only
applied to digit characters because every call site is guarded by
`pin.isdigit()`; the embedding uses the same code-point arithmetic.) -/
def is_sequence (pin : String) : Bool :=
  if pin.length < 2 then false
  else
    let digits : List Int := pin.data.map (fun c => (c.toNat : Int) - 48)
    let step0 : Int := (digits.getD 1 0 - digits.getD 0 0) % 10
    let step : Int := if step0 > 5 then step0 - 10 else step0
    (List.range (digits.length - 2)).all (fun i =>
      digits.getD (i + 2) 0 == (digits.getD (i + 1) 0 + step) % 10)

/-- `is_repetition` from the source: all characters equal, or the pin is
an exact tiling of a prefix whose length divides the total length. -/
def is_repetition (pin : String) : Bool :=
  let pin_length := pin.length
  if pin_length < 2 then false
  else if pin.data.dedup.length == 1 then true
  else (List.range' 1 (pin_length / 2)).any (fun pattern_length =>
    pin_length % pattern_length == 0 &&
      (List.flatten (List.replicate (pin_length / pattern_length)
        (pin.data.take pattern_length)) == pin.data))

/-- `is_palindrome` from the source: the pin equals its own reversal. -/
def is_palindrome (pin : String) : Bool :=
  pin.data == pin.data.reverse

/-- The `KEYPAD_COORDS` dictionary: keypad digit to (x, y) coordinate;
`none` models a `KeyError` on a non-keypad character. -/
def KEYPAD_COORDS : Char → Option (Int × Int)
  | '1' => some (0, 0)
  | '2' => some (1, 0)
  | '3' => some (2, 0)
  | '4' => some (0, 1)
  | '5' => some (1, 1)
  | '6' => some (2, 1)
  | '7' => some (0, 2)
  | '8' => some (1, 2)
  | '9' => some (2, 2)
  | '0' => some (1, 3)
  | _ => none

/-- Cross-product collinearity test `_is_collinear` from the source. -/
def _is_collinear (p1 p2 p3 : Int × Int) : Bool :=
  (p2.2 - p1.2) * (p3.1 - p2.1) == (p3.2 - p2.2) * (p2.1 - p1.1)

/-- The literal corner-cycle set the source compares against. -/
def CORNER_PATTERNS : List String :=
  ["1397", "1793", "3179", "3971", "7139", "7931", "9317", "9713"]

/-- `is_keypad_pattern` from the source: straight line through every
consecutive coordinate triple, or a 4-digit path with exactly one right
angle at its two interior joints, or membership in the corner-cycle set. -/
def is_keypad_pattern (pin : String) : Bool :=
  if pin.length < 3 then false
  else
    match pin.data.mapM KEYPAD_COORDS with
    | none => false
    | some coords =>
      let is_line := decide (3 ≤ coords.length) &&
        (List.range (coords.length - 2)).all (fun i =>
          _is_collinear (coords.getD i (0, 0)) (coords.getD (i + 1) (0, 0))
            (coords.getD (i + 2) (0, 0)))
      let right_angles := ((List.range' 1 2).filter (fun i =>
          let dx1 := (coords.getD i (0, 0)).1 - (coords.getD (i - 1) (0, 0)).1
          let dy1 := (coords.getD i (0, 0)).2 - (coords.getD (i - 1) (0, 0)).2
          let dx2 := (coords.getD (i + 1) (0, 0)).1 - (coords.getD i (0, 0)).1
          let dy2 := (coords.getD (i + 1) (0, 0)).2 - (coords.getD i (0, 0)).2
          dx1 * dx2 + dy1 * dy2 == 0)).length
      if is_line then true
      else if coords.length == 4 && right_angles == 1 then true
      else CORNER_PATTERNS.contains pin

/-- `_is_valid_date` from the source: month in 1..12 and day within the
month length, with the leap-year rule for February. -/
def _is_valid_date (d : PDate) : Bool :=
  if d.month < 1 ∨ 12 < d.month then false
  else if d.month ∈ [1, 3, 5, 7, 8, 10, 12] then
    decide (1 ≤ d.day ∧ d.day ≤ 31)
  else if d.month ∈ [4, 6, 9, 11] then
    decide (1 ≤ d.day ∧ d.day ≤ 30)
  else
    let is_leap := (d.year % 4 = 0 ∧ d.year % 100 ≠ 0) ∨ d.year % 400 = 0
    decide (1 ≤ d.day ∧ d.day ≤ if is_leap then 29 else 28)

/-- Python `f"{n:02d}"` for a non-negative integer: zero-pad to width 2. -/
def pad2 (n : Nat) : String :=
  if n < 10 then "0" ++ toString n else toString n

/-- `generate_date_pins` from the source, with `date.today().year` made
an explicit `current_year` argument.  Produces the 4- and 6-digit strings
derivable from the date, or the empty set for an invalid date. -/
def generate_date_pins (current_year : Nat) (d : PDate) : Finset String :=
  if !_is_valid_date d then ∅
  else
    let dd := pad2 d.day
    let mm := pad2 d.month
    let current_century : Int := (current_year : Int) / 100 * 100
    let base : Finset String := {dd ++ mm, mm ++ dd}
    let pins1 := [current_century - 100, current_century].foldl
      (fun pins century =>
        let year_in_century : Int := (d.year : Int) - century
        if 0 ≤ year_in_century ∧ year_in_century < 100 then
          let yy := pad2 year_in_century.toNat
          insert (dd ++ mm ++ yy) (insert (mm ++ dd ++ yy)
            (insert (yy ++ mm ++ dd) pins))
        else pins) base
    let yy_direct := pad2 (d.year % 100)
    let pins2 := insert (dd ++ mm ++ yy_direct) (insert (mm ++ dd ++ yy_direct)
      (insert (yy_direct ++ mm ++ dd) pins1))
    pins2.filter (fun p => (p.length = 4 ∨ p.length = 6) ∧ str_isdigit p = true)

/-- The final dictionary construction of `check_pin_strength`:
strength is WEAK exactly when the reason list is non-empty. -/
def verdict_of (reasons : List String) : Verdict :=
  { strength := if reasons.isEmpty then "STRONG" else "WEAK"
    reasons := reasons }

/-- `check_pin_strength` from the source: format gate, then the four
structural detectors OR-combined into one `COMMONLY_USED` reason, then
one demographic reason per valid matching date, in the fixed order
self, spouse, anniversary. -/
def check_pin_strength (current_year : Nat) (pin : String)
    (dob_self dob_spouse anniversary : Option PDate) : Verdict :=
  if pin.data = [] ∨ str_isdigit pin = false ∨ ¬(pin.length = 4 ∨ pin.length = 6) then
    { strength := "STRONG", reasons := [] }
  else
    let structural : List String :=
      if is_sequence pin = true ∨ is_repetition pin = true ∨
          is_palindrome pin = true ∨ is_keypad_pattern pin = true then
        [REASON_COMMONLY_USED]
      else []
    let self_reason : List String :=
      match dob_self with
      | some d =>
        if _is_valid_date d = true ∧ pin ∈ generate_date_pins current_year d then
          [REASON_DOB_SELF]
        else []
      | none => []
    let spouse_reason : List String :=
      match dob_spouse with
      | some d =>
        if _is_valid_date d = true ∧ pin ∈ generate_date_pins current_year d then
          [REASON_DOB_SPOUSE]
        else []
      | none => []
    let anniversary_reason : List String :=
      match anniversary with
      | some d =>
        if _is_valid_date d = true ∧ pin ∈ generate_date_pins current_year d then
          [REASON_ANNIVERSARY]
        else []
      | none => []
    verdict_of (structural ++ self_reason ++ spouse_reason ++ anniversary_reason)

/-- Appending strings concatenates their character lists. -/
theorem str_data_append (a b : String) : (a ++ b).data = a.data ++ b.data := rfl

/-- String length is additive over append. -/
theorem str_length_append (a b : String) : (a ++ b).length = a.length + b.length := by
  show (a ++ b).data.length = a.data.length + b.data.length
  rw [str_data_append, List.length_append]

/-- Appending two all-digit non-empty strings yields an all-digit
non-empty string. -/
theorem str_isdigit_append (a b : String)
    (ha : str_isdigit a = true) (hb : str_isdigit b = true) :
    str_isdigit (a ++ b) = true := by
  unfold str_isdigit at *
  rw [Bool.and_eq_true] at ha hb
  rw [str_data_append, Bool.and_eq_true, List.all_append, Bool.and_eq_true]
  refine ⟨?_, ha.2, hb.2⟩
  cases h : a.data with
  | nil => rw [h] at ha; simp at ha
  | cons x xs => simp [h]

set_option maxRecDepth 8000 in
/-- Zero-padding any number below 100 yields a two-character all-digit
string. -/
theorem pad2_spec : ∀ n, n < 100 → (pad2 n).length = 2 ∧ str_isdigit (pad2 n) = true := by
  decide

/-- A date accepted by `_is_valid_date` has month in 1..12 and day in 1..31. -/
theorem valid_date_bounds (d : PDate) (h : _is_valid_date d = true) :
    1 ≤ d.month ∧ d.month ≤ 12 ∧ 1 ≤ d.day ∧ d.day ≤ 31 := by
  unfold _is_valid_date at h
  split_ifs at h
  all_goals first
    | exact Bool.noConfusion h
    | (simp only [decide_eq_true_eq] at h; omega)
    | (simp only [decide_eq_true_eq] at h; split_ifs at h <;> omega)

/-- The verdict constructor couples the strength string to emptiness of
the reason list. -/
theorem verdict_of_weak_iff (l : List String) :
    ((verdict_of l).reasons ≠ [] ↔ (verdict_of l).strength = "WEAK") ∧
    ((verdict_of l).reasons = [] ↔ (verdict_of l).strength = "STRONG") := by
  cases l <;> simp [verdict_of]

/-- Every result of `check_pin_strength` is built by `verdict_of`. -/
theorem check_eq_verdict_of (cy : Nat) (pin : String) (a b c : Option PDate) :
    ∃ l, check_pin_strength cy pin a b c = verdict_of l := by
  unfold check_pin_strength
  split
  · exact ⟨[], rfl⟩
  · exact ⟨_, rfl⟩

/-- Membership in a conditional singleton reason list forces the reason. -/
theorem mem_reason_ite {c : Prop} [Decidable c] {x r : String}
    (h : r ∈ (if c then [x] else ([] : List String))) : r = x := by
  split at h
  · simpa using h
  · simp at h

/-- Membership in a demographic reason component forces its reason code. -/
theorem mem_demo_reason {cy : Nat} {pin : String} {o : Option PDate} {code r : String}
    (h : r ∈ (match o with
      | some d =>
        if _is_valid_date d = true ∧ pin ∈ generate_date_pins cy d then [code] else []
      | none => ([] : List String))) : r = code := by
  cases o with
  | none => simp at h
  | some d => exact mem_reason_ite h

/-- For every valid date the projected set is exactly the five zero-padded
strings `dd+mm`, `mm+dd`, `dd+mm+yy`, `mm+dd+yy`, `yy+mm+dd` with
`yy = year mod 100`: the century-bucket loop only ever re-inserts the
strings that the unconditional modulo-100 branch inserts anyway. -/
theorem generate_date_pins_eq (cy : Nat) (d : PDate) (h : _is_valid_date d = true) :
    generate_date_pins cy d =
      {pad2 d.day ++ pad2 d.month,
       pad2 d.month ++ pad2 d.day,
       pad2 d.day ++ pad2 d.month ++ pad2 (d.year % 100),
       pad2 d.month ++ pad2 d.day ++ pad2 (d.year % 100),
       pad2 (d.year % 100) ++ pad2 d.month ++ pad2 d.day} := by
  obtain ⟨hm1, hm2, hd1, hd2⟩ := valid_date_bounds d h
  have hdd := pad2_spec d.day (by omega)
  have hmm := pad2_spec d.month (by omega)
  have hyy := pad2_spec (d.year % 100) (by omega)
  have hP1 : ((pad2 d.day ++ pad2 d.month).length = 4 ∨
      (pad2 d.day ++ pad2 d.month).length = 6) ∧
      str_isdigit (pad2 d.day ++ pad2 d.month) = true :=
    ⟨Or.inl (by rw [str_length_append, hdd.1, hmm.1]),
     str_isdigit_append _ _ hdd.2 hmm.2⟩
  have hP2 : ((pad2 d.month ++ pad2 d.day).length = 4 ∨
      (pad2 d.month ++ pad2 d.day).length = 6) ∧
      str_isdigit (pad2 d.month ++ pad2 d.day) = true :=
    ⟨Or.inl (by rw [str_length_append, hmm.1, hdd.1]),
     str_isdigit_append _ _ hmm.2 hdd.2⟩
  have hP3 : ((pad2 d.day ++ pad2 d.month ++ pad2 (d.year % 100)).length = 4 ∨
      (pad2 d.day ++ pad2 d.month ++ pad2 (d.year % 100)).length = 6) ∧
      str_isdigit (pad2 d.day ++ pad2 d.month ++ pad2 (d.year % 100)) = true :=
    ⟨Or.inr (by rw [str_length_append, str_length_append, hdd.1, hmm.1, hyy.1]),
     str_isdigit_append _ _ (str_isdigit_append _ _ hdd.2 hmm.2) hyy.2⟩
  have hP4 : ((pad2 d.month ++ pad2 d.day ++ pad2 (d.year % 100)).length = 4 ∨
      (pad2 d.month ++ pad2 d.day ++ pad2 (d.year % 100)).length = 6) ∧
      str_isdigit (pad2 d.month ++ pad2 d.day ++ pad2 (d.year % 100)) = true :=
    ⟨Or.inr (by rw [str_length_append, str_length_append, hmm.1, hdd.1, hyy.1]),
     str_isdigit_append _ _ (str_isdigit_append _ _ hmm.2 hdd.2) hyy.2⟩
  have hP5 : ((pad2 (d.year % 100) ++ pad2 d.month ++ pad2 d.day).length = 4 ∨
      (pad2 (d.year % 100) ++ pad2 d.month ++ pad2 d.day).length = 6) ∧
      str_isdigit (pad2 (d.year % 100) ++ pad2 d.month ++ pad2 d.day) = true :=
    ⟨Or.inr (by rw [str_length_append, str_length_append, hyy.1, hmm.1, hdd.1]),
     str_isdigit_append _ _ (str_isdigit_append _ _ hyy.2 hmm.2) hdd.2⟩
  unfold generate_date_pins
  rw [if_neg (by simp [h])]
  simp only [List.foldl]
  split_ifs
  all_goals try rw [show ((d.year : Int) -
    ((cy : Int) / 100 * 100 - 100)).toNat = d.year % 100 from by omega]
  all_goals try rw [show ((d.year : Int) -
    (cy : Int) / 100 * 100).toNat = d.year % 100 from by omega]
  all_goals
    ext p
  all_goals
    simp only [Finset.mem_filter, Finset.mem_insert, Finset.mem_singleton]
  all_goals constructor
  · rintro ⟨rfl | rfl | rfl | rfl | rfl | rfl | rfl | rfl | rfl | rfl | rfl, -⟩ <;>
      simp only [eq_self_iff_true, true_or, or_true]
  · rintro (rfl | rfl | rfl | rfl | rfl)
    exacts [⟨by simp only [eq_self_iff_true, true_or, or_true], hP1⟩,
      ⟨by simp only [eq_self_iff_true, true_or, or_true], hP2⟩,
      ⟨by simp only [eq_self_iff_true, true_or, or_true], hP3⟩,
      ⟨by simp only [eq_self_iff_true, true_or, or_true], hP4⟩,
      ⟨by simp only [eq_self_iff_true, true_or, or_true], hP5⟩]
  · rintro ⟨rfl | rfl | rfl | rfl | rfl | rfl | rfl | rfl, -⟩ <;>
      simp only [eq_self_iff_true, true_or, or_true]
  · rintro (rfl | rfl | rfl | rfl | rfl)
    exacts [⟨by simp only [eq_self_iff_true, true_or, or_true], hP1⟩,
      ⟨by simp only [eq_self_iff_true, true_or, or_true], hP2⟩,
      ⟨by simp only [eq_self_iff_true, true_or, or_true], hP3⟩,
      ⟨by simp only [eq_self_iff_true, true_or, or_true], hP4⟩,
      ⟨by simp only [eq_self_iff_true, true_or, or_true], hP5⟩]
  · rintro ⟨rfl | rfl | rfl | rfl | rfl | rfl | rfl | rfl, -⟩ <;>
      simp only [eq_self_iff_true, true_or, or_true]
  · rintro (rfl | rfl | rfl | rfl | rfl)
    exacts [⟨by simp only [eq_self_iff_true, true_or, or_true], hP1⟩,
      ⟨by simp only [eq_self_iff_true, true_or, or_true], hP2⟩,
      ⟨by simp only [eq_self_iff_true, true_or, or_true], hP3⟩,
      ⟨by simp only [eq_self_iff_true, true_or, or_true], hP4⟩,
      ⟨by simp only [eq_self_iff_true, true_or, or_true], hP5⟩]
  · rintro ⟨rfl | rfl | rfl | rfl | rfl, -⟩ <;>
      simp only [eq_self_iff_true, true_or, or_true]
  · rintro (rfl | rfl | rfl | rfl | rfl)
    exacts [⟨by simp only [eq_self_iff_true, true_or, or_true], hP1⟩,
      ⟨by simp only [eq_self_iff_true, true_or, or_true], hP2⟩,
      ⟨by simp only [eq_self_iff_true, true_or, or_true], hP3⟩,
      ⟨by simp only [eq_self_iff_true, true_or, or_true], hP4⟩,
      ⟨by simp only [eq_self_iff_true, true_or, or_true], hP5⟩]

/-- The projected set does not depend on the wall-clock year. -/
theorem generate_date_pins_cy_irrel (cy cy' : Nat) (d : PDate) :
    generate_date_pins cy d = generate_date_pins cy' d := by
  by_cases h : _is_valid_date d = true
  · rw [generate_date_pins_eq cy d h, generate_date_pins_eq cy' d h]
  · rw [Bool.not_eq_true] at h
    unfold generate_date_pins
    rw [h]
    simp

/-- The verdict does not depend on the wall-clock year. -/
theorem check_pin_strength_cy_irrel (cy cy' : Nat) (pin : String) (a b c : Option PDate) :
    check_pin_strength cy pin a b c = check_pin_strength cy' pin a b c := by
  unfold check_pin_strength
  simp only [generate_date_pins_cy_irrel cy cy']

/-- A five-element set literal has at most five elements. -/
theorem card_le_five (a b c d e : String) : ({a, b, c, d, e} : Finset String).card ≤ 5 := by
  have h0 := Finset.card_insert_le a ({b, c, d, e} : Finset String)
  have h1 := Finset.card_insert_le b ({c, d, e} : Finset String)
  have h2 := Finset.card_insert_le c ({d, e} : Finset String)
  have h3 := Finset.card_insert_le d ({e} : Finset String)
  have h4 := Finset.card_singleton e
  omega

/-- C1: for PIN "1234" with dob_self 2012-03-04 the claimed verdict lists
both COMMONLY_USED and DEMOGRAPHIC_DOB_SELF; the code never matches
"1234" against that date, so DEMOGRAPHIC_DOB_SELF is absent. -/
theorem C1_counterexample :
    REASON_DOB_SELF ∉
      (check_pin_strength 2025 "1234" (some ⟨2012, 3, 4⟩) none none).reasons := by
  decide

/-- C1 amended: PIN "1234" with dob_self 2012-03-04 is WEAK with reasons
exactly [COMMONLY_USED], for every wall-clock year. -/
theorem C1_amended (cy : Nat) :
    check_pin_strength cy "1234" (some ⟨2012, 3, 4⟩) none none =
      ⟨"WEAK", [REASON_COMMONLY_USED]⟩ :=
  (check_pin_strength_cy_irrel cy 2025 _ _ _ _).trans (by decide)

/-- C2: any pin that is empty, contains a non-digit character, or has
length other than 4 or 6 yields exactly the STRONG verdict with an empty
reason list, whatever dates are supplied. -/
theorem C2_format_gate (pin : String)
    (h : pin = "" ∨ (∃ ch ∈ pin.data, ch.isDigit = false) ∨
      (pin.length ≠ 4 ∧ pin.length ≠ 6)) :
    ∀ (cy : Nat) (a b c : Option PDate),
      check_pin_strength cy pin a b c = ⟨"STRONG", []⟩ := by
  have hguard : pin.data = [] ∨ str_isdigit pin = false ∨
      ¬(pin.length = 4 ∨ pin.length = 6) := by
    rcases h with h | ⟨ch, hmem, hch⟩ | h
    · left
      rw [h]
    · right; left
      unfold str_isdigit
      have hall : pin.data.all Char.isDigit = false := by
        rw [List.all_eq_false]
        exact ⟨ch, hmem, by simp [hch]⟩
      rw [hall, Bool.and_false]
    · right; right
      tauto
  intro cy a b c
  unfold check_pin_strength
  rw [if_pos hguard]

/-- C2 witness: the length-3 pin "123" trips the format gate. -/
theorem C2_format_gate_witness :
    (("123" : String) = "" ∨ (∃ ch ∈ ("123" : String).data, ch.isDigit = false) ∨
      (("123" : String).length ≠ 4 ∧ ("123" : String).length ≠ 6)) ∧
    check_pin_strength 0 "123" none none none = ⟨"STRONG", []⟩ :=
  ⟨Or.inr (Or.inr (by decide)),
   C2_format_gate "123" (Or.inr (Or.inr (by decide))) 0 none none none⟩

/-- C3: on every input the reason list is non-empty exactly when the
strength is WEAK, and empty exactly when it is STRONG. -/
theorem C3_reason_strength_coupling (cy : Nat) (pin : String) (a b c : Option PDate) :
    ((check_pin_strength cy pin a b c).reasons ≠ [] ↔
      (check_pin_strength cy pin a b c).strength = "WEAK") ∧
    ((check_pin_strength cy pin a b c).reasons = [] ↔
      (check_pin_strength cy pin a b c).strength = "STRONG") := by
  obtain ⟨l, hl⟩ := check_eq_verdict_of cy pin a b c
  rw [hl]
  exact verdict_of_weak_iff l

/-- C4: with no dates, "1234", "8901", "9876" and "2468" are WEAK with
reasons exactly [COMMONLY_USED], and "1235" is STRONG with no reasons. -/
theorem C4_sequence_examples (cy : Nat) :
    check_pin_strength cy "1234" none none none = ⟨"WEAK", [REASON_COMMONLY_USED]⟩ ∧
    check_pin_strength cy "8901" none none none = ⟨"WEAK", [REASON_COMMONLY_USED]⟩ ∧
    check_pin_strength cy "9876" none none none = ⟨"WEAK", [REASON_COMMONLY_USED]⟩ ∧
    check_pin_strength cy "2468" none none none = ⟨"WEAK", [REASON_COMMONLY_USED]⟩ ∧
    check_pin_strength cy "1235" none none none = ⟨"STRONG", []⟩ :=
  ⟨(check_pin_strength_cy_irrel cy 0 _ _ _ _).trans (by decide),
   (check_pin_strength_cy_irrel cy 0 _ _ _ _).trans (by decide),
   (check_pin_strength_cy_irrel cy 0 _ _ _ _).trans (by decide),
   (check_pin_strength_cy_irrel cy 0 _ _ _ _).trans (by decide),
   (check_pin_strength_cy_irrel cy 0 _ _ _ _).trans (by decide)⟩

/-- C5 evaluation: "2580", "1478" and "1397" are WEAK as claimed, but
"1739" is also WEAK: the keypad detector rejects it, yet `is_sequence`
accepts it (step (7-1) mod 10 = 6, normalized to -4, and 1,7,3,9 is an
arithmetic progression modulo 10 with step -4), contradicting the
repository's own test expectation of STRONG for "1739". -/
theorem C5_keypad_examples_eval (cy : Nat) :
    check_pin_strength cy "2580" none none none = ⟨"WEAK", [REASON_COMMONLY_USED]⟩ ∧
    check_pin_strength cy "1478" none none none = ⟨"WEAK", [REASON_COMMONLY_USED]⟩ ∧
    check_pin_strength cy "1397" none none none = ⟨"WEAK", [REASON_COMMONLY_USED]⟩ ∧
    check_pin_strength cy "1739" none none none = ⟨"WEAK", [REASON_COMMONLY_USED]⟩ ∧
    is_keypad_pattern "1739" = false ∧ is_sequence "1739" = true :=
  ⟨(check_pin_strength_cy_irrel cy 0 _ _ _ _).trans (by decide),
   (check_pin_strength_cy_irrel cy 0 _ _ _ _).trans (by decide),
   (check_pin_strength_cy_irrel cy 0 _ _ _ _).trans (by decide),
   (check_pin_strength_cy_irrel cy 0 _ _ _ _).trans (by decide),
   by decide, by decide⟩

/-- C6: dob_self 1990-03-05 makes "0503" and "0305" WEAK with reasons
exactly [DEMOGRAPHIC_DOB_SELF]; dob_self 1998-01-02 makes "020198" WEAK
and dob_self 2004-01-02 makes "020104" WEAK with that same reason, for
every wall-clock year (both century buckets resolve). -/
theorem C6_date_projection_examples (cy : Nat) :
    check_pin_strength cy "0503" (some ⟨1990, 3, 5⟩) none none =
      ⟨"WEAK", [REASON_DOB_SELF]⟩ ∧
    check_pin_strength cy "0305" (some ⟨1990, 3, 5⟩) none none =
      ⟨"WEAK", [REASON_DOB_SELF]⟩ ∧
    check_pin_strength cy "020198" (some ⟨1998, 1, 2⟩) none none =
      ⟨"WEAK", [REASON_DOB_SELF]⟩ ∧
    check_pin_strength cy "020104" (some ⟨2004, 1, 2⟩) none none =
      ⟨"WEAK", [REASON_DOB_SELF]⟩ :=
  ⟨(check_pin_strength_cy_irrel cy 2025 _ _ _ _).trans (by decide),
   (check_pin_strength_cy_irrel cy 2025 _ _ _ _).trans (by decide),
   (check_pin_strength_cy_irrel cy 2025 _ _ _ _).trans (by decide),
   (check_pin_strength_cy_irrel cy 2025 _ _ _ _).trans (by decide)⟩

/-- C7: the invalid date 1999-02-29 (1999 is not a leap year) supplied in
any of the three roles leaves the verdict exactly as if no date had been
supplied, for every pin; in particular "2902" with it as dob_self is
STRONG with no reasons. -/
theorem C7_invalid_date_inert :
    (∀ (cy : Nat) (pin : String) (b c : Option PDate),
      check_pin_strength cy pin (some ⟨1999, 2, 29⟩) b c =
        check_pin_strength cy pin none b c) ∧
    (∀ (cy : Nat) (pin : String) (a c : Option PDate),
      check_pin_strength cy pin a (some ⟨1999, 2, 29⟩) c =
        check_pin_strength cy pin a none c) ∧
    (∀ (cy : Nat) (pin : String) (a b : Option PDate),
      check_pin_strength cy pin a b (some ⟨1999, 2, 29⟩) =
        check_pin_strength cy pin a b none) ∧
    (∀ cy : Nat, check_pin_strength cy "2902" (some ⟨1999, 2, 29⟩) none none =
      ⟨"STRONG", []⟩) :=
  ⟨fun _ _ _ _ => rfl, fun _ _ _ _ => rfl, fun _ _ _ _ => rfl, fun _ => rfl⟩

/-- C8: on every input the classifier returns a well-formed verdict whose
strength is the string WEAK or STRONG and whose reasons all come from the
four fixed reason-code constants. -/
theorem C8_totality_wellformed (cy : Nat) (pin : String) (a b c : Option PDate) :
    ((check_pin_strength cy pin a b c).strength = "WEAK" ∨
      (check_pin_strength cy pin a b c).strength = "STRONG") ∧
    ∀ r ∈ (check_pin_strength cy pin a b c).reasons,
      r = REASON_COMMONLY_USED ∨ r = REASON_DOB_SELF ∨
        r = REASON_DOB_SPOUSE ∨ r = REASON_ANNIVERSARY := by
  constructor
  · obtain ⟨l, hl⟩ := check_eq_verdict_of cy pin a b c
    rw [hl]
    cases h : l.isEmpty <;> simp [verdict_of, h]
  · intro r hr
    unfold check_pin_strength at hr
    split at hr
    · simp at hr
    · simp only [verdict_of] at hr
      rw [List.mem_append, List.mem_append, List.mem_append] at hr
      rcases hr with ((h | h) | h) | h
      · exact Or.inl (mem_reason_ite h)
      · exact Or.inr (Or.inl (mem_demo_reason h))
      · exact Or.inr (Or.inr (Or.inl (mem_demo_reason h)))
      · exact Or.inr (Or.inr (Or.inr (mem_demo_reason h)))

/-- C9: the classifier is a pure function of its declared inputs: the
verdict does not depend on the wall-clock year read by the date
projector, so two calls with identical pin and dates always agree. -/
theorem C9_determinism (cy cy' : Nat) (pin : String) (a b c : Option PDate) :
    check_pin_strength cy pin a b c = check_pin_strength cy' pin a b c :=
  check_pin_strength_cy_irrel cy cy' pin a b c

/-- C10: for every valid date and every wall-clock year the projected set
is exactly the five strings dd+mm, mm+dd, dd+mm+yy, mm+dd+yy, yy+mm+dd
with yy the zero-padded year modulo 100, and hence has at most five
elements; the century-bucket loop never contributes anything beyond the
unconditional modulo-100 branch. -/
theorem C10_projection_set (cy : Nat) (d : PDate) (h : _is_valid_date d = true) :
    generate_date_pins cy d =
      {pad2 d.day ++ pad2 d.month,
       pad2 d.month ++ pad2 d.day,
       pad2 d.day ++ pad2 d.month ++ pad2 (d.year % 100),
       pad2 d.month ++ pad2 d.day ++ pad2 (d.year % 100),
       pad2 (d.year % 100) ++ pad2 d.month ++ pad2 d.day} ∧
    (generate_date_pins cy d).card ≤ 5 := by
  refine ⟨generate_date_pins_eq cy d h, ?_⟩
  rw [generate_date_pins_eq cy d h]
  exact card_le_five _ _ _ _ _

/-- C10 witness: the date 1990-03-05 projects to exactly five strings. -/
theorem C10_projection_set_witness :
    _is_valid_date ⟨1990, 3, 5⟩ = true ∧
    generate_date_pins 2025 ⟨1990, 3, 5⟩ =
      {"0503", "0305", "050390", "030590", "900305"} ∧
    (generate_date_pins 2025 ⟨1990, 3, 5⟩).card ≤ 5 := by
  have h := C10_projection_set 2025 ⟨1990, 3, 5⟩ (by decide)
  exact ⟨by decide, h.1.trans (by decide), h.2⟩
